import Mathlib

/-!
Verification of the task-management core (TaskRepository / TaskController)
against its specification.

The repository layer and the controller layer are translated from
`public/src/repositories/TaskRepository.js` and
`public/src/controllers/TaskController.js`.  The entity layer
(`EnhancedTask`, `User`) and the storage port are external to the scope:
the entity mutation operations are passed in as an explicit record of
functions (`TaskOps`), so theorems about the repository and controller
quantify over every possible entity-layer behaviour.  JavaScript `Map`s
become association lists keyed by id (insertion order preserved,
`set` on an existing key replaces in place), `undefined`/optional values
become `Option`, thrown exceptions become `Except String`, and truthiness
of a string is modelled as being non-empty.
-/

namespace TaskMgmt

/-- A user as seen by the controller; only the identity is relevant here
(the rest of the `User` entity is out of scope). -/
structure User where
  id : String
  username : String
  deriving DecidableEq, Repr

/-- A task entity: the flat field set the repository and controller read.
Derived fields (`isOverdue`, `daysUntilDue`) are computed by the external
entity layer, so here they are carried as data. -/
structure Task where
  id : String
  title : String
  description : String
  ownerId : String
  assigneeId : String
  category : String
  priority : String
  status : String
  dueDate : Option Int
  createdAt : Int
  daysUntilDue : Option Int
  isOverdue : Bool
  estimatedHours : Int
  timeSpent : Int
  tags : List String
  notes : List String
  deriving DecidableEq, Repr

/-- The data object handed to `TaskRepository.create` after the controller
has pinned `ownerId` and resolved `assigneeId`. -/
structure CreateData where
  title : Option String := none
  description : Option String := none
  ownerId : Option String := none
  assigneeId : Option String := none
  deriving DecidableEq, Repr

/-- The `updates` object accepted by `TaskRepository.update`: one optional
value per recognized key; a `none` field models an absent (`undefined`)
key.  Unrecognized keys of the JavaScript object have no counterpart here
because `update` never reads them. -/
structure Updates where
  title : Option String := none
  description : Option String := none
  category : Option String := none
  priority : Option String := none
  status : Option String := none
  dueDate : Option (Option Int) := none
  assigneeId : Option String := none
  estimatedHours : Option Int := none
  addTimeSpent : Option Int := none
  addTag : Option String := none
  removeTag : Option String := none
  addNote : Option String := none
  deriving DecidableEq, Repr

/-- The external entity-layer operations (`EnhancedTask` methods) the
repository dispatches to.  Each may fail with a domain error, modelled as
`Except String`; a successful call returns the mutated task. -/
structure TaskOps where
  mkTask : CreateData → Except String Task
  updateTitle : Task → String → Except String Task
  updateDescription : Task → String → Except String Task
  updateCategory : Task → String → Except String Task
  updatePriority : Task → String → Except String Task
  updateStatus : Task → String → Except String Task
  setDueDate : Task → Option Int → Except String Task
  assignTo : Task → String → Except String Task
  setEstimatedHours : Task → Int → Except String Task
  addTimeSpent : Task → Int → Except String Task
  addTag : Task → String → Except String Task
  removeTag : Task → String → Except String Task
  addNote : Task → String → Except String Task

/-- Association-list lookup, modelling `Map.prototype.get`. -/
def lookupTask : List (String × Task) → String → Option Task
  | [], _ => none
  | (k, t) :: rest, id => if k = id then some t else lookupTask rest id

/-- Models `Map.prototype.set`: replace in place when the key is present
(keeping its position), append otherwise. -/
def setTask : List (String × Task) → String → Task → List (String × Task)
  | [], id, t => [(id, t)]
  | (k, u) :: rest, id, t =>
    if k = id then (id, t) :: rest else (k, u) :: setTask rest id t

/-- Models `Map.prototype.delete` followed by nothing else: remove the key. -/
def removeTask : List (String × Task) → String → List (String × Task)
  | [], _ => []
  | (k, u) :: rest, id =>
    if k = id then rest else (k, u) :: removeTask rest id

/-- The repository state: the in-memory index (`this.tasks`) plus the
mirror the storage port last received (`_saveTasksToStorage` serializes
the whole index, so the mirror is modelled as a copy of the index at the
time of the last persist). -/
structure RepoState where
  tasks : List (String × Task)
  stored : List (String × Task)
  deriving DecidableEq, Repr

/-- Embeds `TaskRepository.findById`: O(1) lookup, `null` when absent. -/
def repoFindById (st : RepoState) (id : String) : Option Task :=
  lookupTask st.tasks id

/-- Embeds `TaskRepository.findAll`: `Array.from(this.tasks.values())`. -/
def repoFindAll (st : RepoState) : List Task :=
  st.tasks.map Prod.snd

/-- Embeds `TaskRepository.findByOwner`. -/
def repoFindByOwner (st : RepoState) (ownerId : String) : List Task :=
  (repoFindAll st).filter (fun t => t.ownerId = ownerId)

/-- Embeds `TaskRepository.findByAssignee`. -/
def repoFindByAssignee (st : RepoState) (assigneeId : String) : List Task :=
  (repoFindAll st).filter (fun t => t.assigneeId = assigneeId)

/-- Embeds `TaskRepository.findOverdue`. -/
def repoFindOverdue (st : RepoState) : List Task :=
  (repoFindAll st).filter (fun t => t.isOverdue = true)

/-- Embeds `TaskRepository.findDueSoon(days = 3)`: keep tasks whose
`daysUntilDue` is non-null and lies in `[0, days]`. -/
def repoFindDueSoon (st : RepoState) (days : Int) : List Task :=
  (repoFindAll st).filter (fun t =>
    match t.daysUntilDue with
    | none => false
    | some d => d ≤ days ∧ 0 ≤ d)

/-- Embeds `TaskRepository.create`: build the entity, insert under its id,
persist the whole index.  A constructor error propagates and leaves the
state unchanged (the `catch` only logs and rethrows). -/
def repoCreate (ops : TaskOps) (st : RepoState) (data : CreateData) :
    Except String Task × RepoState :=
  match ops.mkTask data with
  | Except.error e => (Except.error e, st)
  | Except.ok task =>
    let ts := setTask st.tasks task.id task
    (Except.ok task, ⟨ts, ts⟩)

/-- One named mutation dispatched by `TaskRepository.update`, carrying its
argument; constructors are listed in the order the source checks the keys. -/
inductive MutStep where
  | title (v : String)
  | descr (v : String)
  | category (v : String)
  | priority (v : String)
  | status (v : String)
  | dueDate (v : Option Int)
  | assignee (v : String)
  | estHours (v : Int)
  | timeSpent (v : Int)
  | tagAdd (v : String)
  | tagDel (v : String)
  | note (v : String)
  deriving DecidableEq, Repr

/-- Helper: a present key contributes one step, an absent key none. -/
def optStep {α : Type} (o : Option α) (f : α → MutStep) : List MutStep :=
  match o with
  | none => []
  | some v => [f v]

/-- The mutation sequence of `TaskRepository.update`: exactly the twelve
`if (updates.k !== undefined)` dispatches, in source order
(title, description, category, priority, status, dueDate, assigneeId,
estimatedHours, addTimeSpent, addTag, removeTag, addNote). -/
def stepsOf (u : Updates) : List MutStep :=
  optStep u.title MutStep.title ++
  optStep u.description MutStep.descr ++
  optStep u.category MutStep.category ++
  optStep u.priority MutStep.priority ++
  optStep u.status MutStep.status ++
  optStep u.dueDate MutStep.dueDate ++
  optStep u.assigneeId MutStep.assignee ++
  optStep u.estimatedHours MutStep.estHours ++
  optStep u.addTimeSpent MutStep.timeSpent ++
  optStep u.addTag MutStep.tagAdd ++
  optStep u.removeTag MutStep.tagDel ++
  optStep u.addNote MutStep.note

/-- Dispatch of one mutation step to the entity layer. -/
def applyStep (ops : TaskOps) (t : Task) : MutStep → Except String Task
  | MutStep.title v => ops.updateTitle t v
  | MutStep.descr v => ops.updateDescription t v
  | MutStep.category v => ops.updateCategory t v
  | MutStep.priority v => ops.updatePriority t v
  | MutStep.status v => ops.updateStatus t v
  | MutStep.dueDate v => ops.setDueDate t v
  | MutStep.assignee v => ops.assignTo t v
  | MutStep.estHours v => ops.setEstimatedHours t v
  | MutStep.timeSpent v => ops.addTimeSpent t v
  | MutStep.tagAdd v => ops.addTag t v
  | MutStep.tagDel v => ops.removeTag t v
  | MutStep.note v => ops.addNote t v

/-- Sequential application of the mutation steps with the in-place
semantics of the source: the task object is mutated step by step, and a
thrown domain error aborts the rest, leaving the partially mutated task
behind — the error case carries that partial task. -/
def applySteps (ops : TaskOps) (t : Task) :
    List MutStep → Except (String × Task) Task
  | [] => Except.ok t
  | s :: rest =>
    match applyStep ops t s with
    | Except.error e => Except.error (e, t)
    | Except.ok t2 => applySteps ops t2 rest

/-- Embeds `TaskRepository.update(id, updates)`: `null` (no error, no change)
when the id is absent; otherwise the ordered mutations run against the
task object held by the index.  On success the index is persisted and the
task returned; on a domain error the error propagates, the in-memory task
keeps the mutations applied before the failure, and nothing is persisted. -/
def repoUpdate (ops : TaskOps) (st : RepoState) (id : String) (u : Updates) :
    Except String (Option Task) × RepoState :=
  match lookupTask st.tasks id with
  | none => (Except.ok none, st)
  | some t =>
    match applySteps ops t (stepsOf u) with
    | Except.ok t2 =>
      let ts := setTask st.tasks id t2
      (Except.ok (some t2), ⟨ts, ts⟩)
    | Except.error (e, tpart) =>
      (Except.error e, ⟨setTask st.tasks id tpart, st.stored⟩)

/-- Embeds `TaskRepository.delete(id)`: remove and persist when present
(returns true), otherwise return false without touching anything. -/
def repoDelete (st : RepoState) (id : String) : Bool × RepoState :=
  if (lookupTask st.tasks id).isSome then
    let ts := removeTask st.tasks id
    (true, ⟨ts, ts⟩)
  else
    (false, st)

/-- Does the second character list start with the first? -/
def charsStartWith : List Char → List Char → Bool
  | [], _ => true
  | _ :: _, [] => false
  | a :: as, b :: bs => a = b && charsStartWith as bs

/-- Does the second character list contain the first as a contiguous run? -/
def charsContain (sub : List Char) : List Char → Bool
  | [] => charsStartWith sub []
  | b :: bs => charsStartWith sub (b :: bs) || charsContain sub bs

/-- Case-insensitive substring test, modelling
`String.prototype.includes` after `toLowerCase` on both sides. -/
def strIncludes (s sub : String) : Bool :=
  charsContain sub.toList s.toList

/-- Embeds `TaskRepository.search(query)`: case-insensitive substring match on
title, description, or any tag. -/
def repoSearch (st : RepoState) (query : String) : List Task :=
  let searchTerm := query.toLower
  (repoFindAll st).filter (fun t =>
    strIncludes t.title.toLower searchTerm ||
    strIncludes t.description.toLower searchTerm ||
    t.tags.any (fun tag => strIncludes tag.toLower searchTerm))

/-- JavaScript truthiness of an optional string: present and non-empty. -/
def truthyStr (o : Option String) : Bool :=
  match o with
  | none => false
  | some s => s ≠ ""

/-- The filter configuration object of `TaskRepository.filter` (plus the
`sortBy`/`sortOrder` keys the controller reads from the same object). -/
structure Filters where
  ownerId : Option String := none
  assigneeId : Option String := none
  category : Option String := none
  status : Option String := none
  priority : Option String := none
  overdue : Bool := false
  dueSoon : Bool := false
  tags : Option (List String) := none
  sortBy : Option String := none
  sortOrder : Option String := none
  deriving DecidableEq, Repr

/-- Embeds `TaskRepository.filter(filters)`: conjunctive pipeline; each truthy
option narrows the running result list. -/
def repoFilter (st : RepoState) (f : Filters) : List Task :=
  let r0 := repoFindAll st
  let r1 := if truthyStr f.ownerId then
    r0.filter (fun t => some t.ownerId = f.ownerId) else r0
  let r2 := if truthyStr f.assigneeId then
    r1.filter (fun t => some t.assigneeId = f.assigneeId) else r1
  let r3 := if truthyStr f.category then
    r2.filter (fun t => some t.category = f.category) else r2
  let r4 := if truthyStr f.status then
    r3.filter (fun t => some t.status = f.status) else r3
  let r5 := if truthyStr f.priority then
    r4.filter (fun t => some t.priority = f.priority) else r4
  let r6 := if f.overdue then
    r5.filter (fun t => t.isOverdue = true) else r5
  let r7 := if f.dueSoon then
    r6.filter (fun t =>
      match t.daysUntilDue with
      | none => false
      | some d => d ≤ 3 ∧ 0 ≤ d) else r6
  let r8 := match f.tags with
    | some l => if l.length > 0 then
        r7.filter (fun t => l.any (fun tag => t.tags.contains tag)) else r7
    | none => r7
  r8

/-- The priority ordinal object `p = \x7b low: 1, medium: 2, high: 3,
urgent: 4 \x7d`; lookup of any other key yields `undefined` (`none`). -/
def prioMap (p : String) : Option Nat :=
  if p = "low" then some 1
  else if p = "medium" then some 2
  else if p = "high" then some 3
  else if p = "urgent" then some 4
  else none

/-- JavaScript `<` on two possibly-undefined numbers: comparisons
involving `undefined` are false. -/
def jsltNat (a b : Option Nat) : Bool :=
  match a, b with
  | some x, some y => x < y
  | _, _ => false

/-- Timestamp of `new Date('9999-12-31')`, the far-future stand-in for a
missing due date in the comparator. -/
def farFuture : Int := 253402214400000

/-- The comparator keys of `TaskRepository.sort`: is `valueA < valueB`
for the given `sortBy`? -/
def sortKeyLt (sortBy : String) (a b : Task) : Bool :=
  if sortBy = "title" then a.title.toLower < b.title.toLower
  else if sortBy = "priority" then jsltNat (prioMap a.priority) (prioMap b.priority)
  else if sortBy = "dueDate" then a.dueDate.getD farFuture < b.dueDate.getD farFuture
  else a.createdAt < b.createdAt

/-- Is `valueA > valueB` for the given `sortBy`? -/
def sortKeyGt (sortBy : String) (a b : Task) : Bool :=
  if sortBy = "title" then b.title.toLower < a.title.toLower
  else if sortBy = "priority" then jsltNat (prioMap b.priority) (prioMap a.priority)
  else if sortBy = "dueDate" then b.dueDate.getD farFuture < a.dueDate.getD farFuture
  else b.createdAt < a.createdAt

/-- The comparator of `TaskRepository.sort`: `asc` yields
`valueA > valueB ? 1 : -1`, `desc` yields `valueA < valueB ? 1 : -1`. -/
def jsComparator (sortBy order : String) (a b : Task) : Int :=
  if order = "asc" then (if sortKeyGt sortBy a b then 1 else -1)
  else (if sortKeyLt sortBy a b then 1 else -1)

/-- Predicate: `a` may be placed before `b` when the comparator does not demand the
opposite order (`comparator(a,b) < 0`; the comparator never returns 0). -/
def sortLe (sortBy order : String) (a b : Task) : Bool :=
  jsComparator sortBy order a b < 0

/-- Insert one task into an already comparator-ordered list. -/
def insertSorted (le : Task → Task → Bool) (a : Task) : List Task → List Task
  | [] => [a]
  | b :: bs => if le a b then a :: b :: bs else b :: insertSorted le a bs

/-- Embeds `TaskRepository.sort(tasks, sortBy, order)`: a comparator-respecting
reordering of the input (insertion sort on the comparator; the source
delegates to the engine sort with the comparator above). -/
def sortTasks (tasks : List Task) (sortBy order : String) : List Task :=
  match tasks with
  | [] => []
  | t :: ts => insertSorted (sortLe sortBy order) t (sortTasks ts sortBy order)

/-- The statistics object of `TaskRepository.getStats`. -/
structure Stats where
  total : Nat
  byStatus : List (String × Nat)
  byPriority : List (String × Nat)
  byCategory : List (String × Nat)
  overdue : Nat
  dueSoon : Nat
  completed : Nat
  deriving DecidableEq, Repr

/-- The fixed status enumeration iterated by `getStats`. -/
def statusList : List String :=
  ["pending", "in-progress", "blocked", "completed", "cancelled"]

/-- The fixed priority enumeration iterated by `getStats`. -/
def priorityList : List String := ["low", "medium", "high", "urgent"]

/-- The fixed category enumeration iterated by `getStats`. -/
def categoryList : List String :=
  ["work", "personal", "study", "health", "finance", "other"]

/-- Embeds `TaskRepository.getStats(userId = null)`: owner-scoped when `userId`
is truthy, global otherwise.  Note the due-soon count filters on
`daysUntilDue !== null && daysUntilDue <= 3` with no lower bound. -/
def repoGetStats (st : RepoState) (userId : Option String) : Stats :=
  let tasks := if truthyStr userId then
    repoFindByOwner st (userId.getD "") else repoFindAll st
  { total := tasks.length
    byStatus := statusList.map (fun s =>
      (s, (tasks.filter (fun t => t.status = s)).length))
    byPriority := priorityList.map (fun p =>
      (p, (tasks.filter (fun t => t.priority = p)).length))
    byCategory := categoryList.map (fun c =>
      (c, (tasks.filter (fun t => t.category = c)).length))
    overdue := (tasks.filter (fun t => t.isOverdue = true)).length
    dueSoon := (tasks.filter (fun t =>
      match t.daysUntilDue with
      | none => false
      | some d => d ≤ 3)).length
    completed := (tasks.filter (fun t => t.status = "completed")).length }

/-- The payload carried in a response envelope: a single task, a task
list, or a statistics object. -/
inductive ResData where
  | task (t : Task)
  | tasks (l : List Task)
  | stats (s : Stats)
  deriving DecidableEq, Repr

/-- The uniform controller response envelope
`\x7b success, data?, message?, error?, count?, query? \x7d`; absent keys
are `none`. -/
structure Response where
  success : Bool
  data : Option ResData := none
  message : Option String := none
  error : Option String := none
  count : Option Nat := none
  query : Option String := none
  deriving DecidableEq, Repr

/-- The controller's session state: the nullable current user, the task
repository it wraps, and the user repository's index.  The user index is
a plain list because `UserRepository` itself is outside the two files in
scope; only its `findById` lookup is consumed here. -/
structure ControllerState where
  currentUser : Option User
  repo : RepoState
  users : List User
  deriving DecidableEq, Repr

/-- Modelled from the spec: `UserRepository.findById` — not part of the
two source files in scope — performs a lookup returning the user, or null
when absent (spec §4.2: "findById ...: O(1) or linear lookup; null when
absent"). -/
def userFindById (users : List User) (id : String) : Option User :=
  users.find? (fun u => u.id = id)

/-- Embeds `TaskController.setCurrentUser(userId)`: assigns the lookup result to
`currentUser`, then throws when it is null.  The thrown error propagates
to the caller (there is no try/catch here), with `currentUser` left null. -/
def setCurrentUser (st : ControllerState) (userId : String) :
    Except String Unit × ControllerState :=
  match userFindById st.users userId with
  | none => (Except.error "User tidak ditemukan", { st with currentUser := none })
  | some u => (Except.ok (), { st with currentUser := some u })

/-- A whitespace character as `String.prototype.trim` sees it (the
common ASCII whitespace suffices here). -/
def isWs (c : Char) : Bool :=
  c = ' ' || c = '\t' || c = '\n' || c = '\r'

/-- Models `String.prototype.trim`: strip leading and trailing whitespace. -/
def jsTrim (s : String) : String :=
  String.mk (((s.toList.dropWhile isWs).reverse.dropWhile isWs).reverse)

/-- JavaScript falsiness of `taskData.title` / the search query combined
with the empty-after-trim test: `!x || x.trim() === ''`. -/
def strBlank (o : Option String) : Bool :=
  match o with
  | none => true
  | some s => s = "" || jsTrim s = ""

/-- Models `x || d` on an optional string: the default replaces an absent or
empty (falsy) value. -/
def strOrDefault (o : Option String) (d : String) : String :=
  match o with
  | none => d
  | some s => if s = "" then d else s

/-- The message of the TypeError V8 raises for `this.currentUser.id` when
`currentUser` is null; `toggleTaskStatus` reaches this read without a
login check and its catch block turns the exception into an envelope. -/
def nullIdReadMsg : String := "Cannot read properties of null (reading 'id')"

/-- Embeds `TaskController.createTask(taskData)`: login check, non-blank title
check, pin `ownerId` to the current user, default `assigneeId` to the
current user, require an explicitly different assignee to exist, then
delegate to the repository (whose errors the catch block maps to an error
envelope, leaving the state unchanged since the failed constructor never
inserted). -/
def createTask (ops : TaskOps) (st : ControllerState) (taskData : CreateData) :
    Response × ControllerState :=
  match st.currentUser with
  | none => ({ success := false, error := some "User harus login terlebih dahulu" }, st)
  | some user =>
    if strBlank taskData.title then
      ({ success := false, error := some "Judul task wajib diisi" }, st)
    else
      let resolvedAssignee :=
        match taskData.assigneeId with
        | some s => if s = "" then user.id else s
        | none => user.id
      let taskToCreate : CreateData :=
        { taskData with ownerId := some user.id, assigneeId := some resolvedAssignee }
      if resolvedAssignee ≠ user.id ∧ userFindById st.users resolvedAssignee = none then
        ({ success := false, error := some "User yang di-assign tidak ditemukan" }, st)
      else
        match repoCreate ops st.repo taskToCreate with
        | (Except.error e, repo2) =>
          ({ success := false, error := some e }, { st with repo := repo2 })
        | (Except.ok task, repo2) =>
          ({ success := true, data := some (ResData.task task),
             message := some ("Task \"" ++ task.title ++ "\" berhasil dibuat") },
           { st with repo := repo2 })

/-- Embeds `TaskController.getTasks(filters)`: login check, pin `ownerId` over
whatever the caller supplied, filter, then sort by the requested (or
default `createdAt`/`desc`) key. -/
def getTasks (st : ControllerState) (filters : Filters) : Response :=
  match st.currentUser with
  | none => { success := false, error := some "User harus login terlebih dahulu" }
  | some user =>
    let userFilters := { filters with ownerId := some user.id }
    let tasks := repoFilter st.repo userFilters
    let sortBy := strOrDefault filters.sortBy "createdAt"
    let sortOrder := strOrDefault filters.sortOrder "desc"
    let sorted := sortTasks tasks sortBy sortOrder
    { success := true, data := some (ResData.tasks sorted), count := some sorted.length }

/-- Embeds `TaskController.getTask(taskId)`: login check, not-found check, then
owner-or-assignee access check. -/
def getTask (st : ControllerState) (taskId : String) : Response :=
  match st.currentUser with
  | none => { success := false, error := some "User harus login terlebih dahulu" }
  | some user =>
    match repoFindById st.repo taskId with
    | none => { success := false, error := some "Task tidak ditemukan" }
    | some task =>
      if task.ownerId ≠ user.id ∧ task.assigneeId ≠ user.id then
        { success := false, error := some "Anda tidak memiliki akses ke task ini" }
      else
        { success := true, data := some (ResData.task task) }

/-- Embeds `TaskController.updateTask(taskId, updates)`: login check, not-found
check, owner-only check, existence check for a truthy `assigneeId`
update, then the repository update; a thrown domain error is caught into
an error envelope while the repository keeps whatever the failed update
left in memory. -/
def updateTask (ops : TaskOps) (st : ControllerState) (taskId : String)
    (updates : Updates) : Response × ControllerState :=
  match st.currentUser with
  | none => ({ success := false, error := some "User harus login terlebih dahulu" }, st)
  | some user =>
    match repoFindById st.repo taskId with
    | none => ({ success := false, error := some "Task tidak ditemukan" }, st)
    | some task =>
      if task.ownerId ≠ user.id then
        ({ success := false, error := some "Hanya owner yang bisa mengubah task" }, st)
      else if truthyStr updates.assigneeId ∧
          userFindById st.users (updates.assigneeId.getD "") = none then
        ({ success := false, error := some "User yang di-assign tidak ditemukan" }, st)
      else
        match repoUpdate ops st.repo taskId updates with
        | (Except.ok o, repo2) =>
          ({ success := true, data := o.map ResData.task,
             message := some "Task berhasil diupdate" }, { st with repo := repo2 })
        | (Except.error e, repo2) =>
          ({ success := false, error := some e }, { st with repo := repo2 })

/-- Embeds `TaskController.deleteTask(taskId)`: login check, not-found check,
owner-only check, then repository delete. -/
def deleteTask (st : ControllerState) (taskId : String) :
    Response × ControllerState :=
  match st.currentUser with
  | none => ({ success := false, error := some "User harus login terlebih dahulu" }, st)
  | some user =>
    match repoFindById st.repo taskId with
    | none => ({ success := false, error := some "Task tidak ditemukan" }, st)
    | some task =>
      if task.ownerId ≠ user.id then
        ({ success := false, error := some "Hanya owner yang bisa menghapus task" }, st)
      else
        match repoDelete st.repo taskId with
        | (true, repo2) =>
          ({ success := true,
             message := some ("Task \"" ++ task.title ++ "\" berhasil dihapus") },
           { st with repo := repo2 })
        | (false, repo2) =>
          ({ success := false, error := some "Gagal menghapus task" },
           { st with repo := repo2 })

/-- Embeds `TaskController.toggleTaskStatus(taskId)`: performs the not-found
check FIRST and only then reads `this.currentUser.id` — with no login
check, a null `currentUser` at that point raises a TypeError that the
catch block converts to an envelope carrying the TypeError's message.
Otherwise: owner-or-assignee check, then a one-bit toggle between
`completed` and `pending` through the repository update. -/
def toggleTaskStatus (ops : TaskOps) (st : ControllerState) (taskId : String) :
    Response × ControllerState :=
  match repoFindById st.repo taskId with
  | none => ({ success := false, error := some "Task tidak ditemukan" }, st)
  | some task =>
    match st.currentUser with
    | none => ({ success := false, error := some nullIdReadMsg }, st)
    | some user =>
      if task.ownerId ≠ user.id ∧ task.assigneeId ≠ user.id then
        ({ success := false, error := some "Anda tidak memiliki akses ke task ini" }, st)
      else
        let newStatus := if task.status = "completed" then "pending" else "completed"
        match repoUpdate ops st.repo taskId { status := some newStatus } with
        | (Except.ok o, repo2) =>
          ({ success := true, data := o.map ResData.task,
             message := some (if newStatus = "completed" then "Task selesai"
               else "Task belum selesai") }, { st with repo := repo2 })
        | (Except.error e, repo2) =>
          ({ success := false, error := some e }, { st with repo := repo2 })

/-- Embeds `TaskController.searchTasks(query)`: login check, non-blank query
check, then a repository search narrowed to tasks the user owns or is
assigned. -/
def searchTasks (st : ControllerState) (query : Option String) : Response :=
  match st.currentUser with
  | none => { success := false, error := some "User harus login terlebih dahulu" }
  | some user =>
    if strBlank query then
      { success := false, error := some "Query pencarian tidak boleh kosong" }
    else
      let q := query.getD ""
      let allResults := repoSearch st.repo q
      let userResults := allResults.filter (fun t =>
        t.ownerId = user.id ∨ t.assigneeId = user.id)
      { success := true, data := some (ResData.tasks userResults),
        count := some userResults.length, query := some q }

/-- Embeds `TaskController.getTaskStats()`: login check, then owner-scoped
repository statistics for the current user. -/
def getTaskStats (st : ControllerState) : Response :=
  match st.currentUser with
  | none => { success := false, error := some "User harus login terlebih dahulu" }
  | some user =>
    { success := true, data := some (ResData.stats (repoGetStats st.repo (some user.id))) }

/-- Embeds `TaskController.getOverdueTasks()`: login check, then the repository's
overdue tasks narrowed to owner-or-assignee. -/
def getOverdueTasks (st : ControllerState) : Response :=
  match st.currentUser with
  | none => { success := false, error := some "User harus login terlebih dahulu" }
  | some user =>
    let overdueTasks := (repoFindOverdue st.repo).filter (fun t =>
      t.ownerId = user.id ∨ t.assigneeId = user.id)
    { success := true, data := some (ResData.tasks overdueTasks),
      count := some overdueTasks.length }

/-- Embeds `TaskController.getTasksDueSoon(days = 3)`: login check, then the
repository's due-soon tasks narrowed to owner-or-assignee. -/
def getTasksDueSoon (st : ControllerState) (days : Int := 3) : Response :=
  match st.currentUser with
  | none => { success := false, error := some "User harus login terlebih dahulu" }
  | some user =>
    let dueSoonTasks := (repoFindDueSoon st.repo days).filter (fun t =>
      t.ownerId = user.id ∨ t.assigneeId = user.id)
    { success := true, data := some (ResData.tasks dueSoonTasks),
      count := some dueSoonTasks.length }

/-- Modelled from the spec: a concrete instance of the external
`EnhancedTask` entity operations, used to instantiate theorems that
quantify over `TaskOps`.  The spec (§3, §4.1, §7) states that mutation
operations may validate and fail with a human-readable domain error
embedding the offending value (its example: an invalid priority value),
that `priority`/`status`/`category` are drawn from fixed enumerations,
that `addTimeSpent` is additive, `tags` a set preserving insertion order,
and `notes` an ordered append; operations the spec gives no validation
for are plain setters. -/
def specOps : TaskOps where
  mkTask d :=
    match d.title, d.ownerId with
    | some title, some owner =>
      if jsTrim title = "" then Except.error "Judul task wajib diisi"
      else Except.ok
        { id := "task-" ++ title, title := title,
          description := d.description.getD "", ownerId := owner,
          assigneeId := d.assigneeId.getD owner, category := "other",
          priority := "medium", status := "pending", dueDate := none,
          createdAt := 0, daysUntilDue := none, isOverdue := false,
          estimatedHours := 0, timeSpent := 0, tags := [], notes := [] }
    | _, _ => Except.error "Data task tidak lengkap"
  updateTitle t v :=
    if jsTrim v = "" then Except.error "Judul tidak boleh kosong"
    else Except.ok { t with title := v }
  updateDescription t v := Except.ok { t with description := v }
  updateCategory t v :=
    if categoryList.contains v then Except.ok { t with category := v }
    else Except.error ("Kategori tidak valid: " ++ v)
  updatePriority t v :=
    if priorityList.contains v then Except.ok { t with priority := v }
    else Except.error ("Prioritas tidak valid: " ++ v)
  updateStatus t v :=
    if statusList.contains v then Except.ok { t with status := v }
    else Except.error ("Status tidak valid: " ++ v)
  setDueDate t v := Except.ok { t with dueDate := v }
  assignTo t v := Except.ok { t with assigneeId := v }
  setEstimatedHours t v := Except.ok { t with estimatedHours := v }
  addTimeSpent t v := Except.ok { t with timeSpent := t.timeSpent + v }
  addTag t v :=
    if t.tags.contains v then Except.ok t
    else Except.ok { t with tags := t.tags ++ [v] }
  removeTag t v := Except.ok { t with tags := t.tags.filter (fun x => x ≠ v) }
  addNote t v := Except.ok { t with notes := t.notes ++ [v] }

/-- The error envelope every guarded operation returns when no user is
logged in. -/
def loginDenied : Response :=
  { success := false, error := some "User harus login terlebih dahulu" }

/-- The envelope discipline of §4.3: a success carries no `error` key;
a failure carries only `success` and `error`. -/
def envelopeOk (r : Response) : Prop :=
  if r.success then r.error = none
  else r.error ≠ none ∧ r.data = none ∧ r.message = none ∧
    r.count = none ∧ r.query = none

/-- The due-soon count as the claim states it (refinement reference,
written from the spec wording, to be compared with `repoGetStats`): the
number of in-scope tasks whose `daysUntilDue` is non-null and lies in the
inclusive interval `[0, 3]`. -/
def specDueSoonCount (st : RepoState) (userId : Option String) : Nat :=
  let tasks := if truthyStr userId then
    repoFindByOwner st (userId.getD "") else repoFindAll st
  tasks.countP (fun t =>
    match t.daysUntilDue with
    | none => false
    | some d => decide (0 ≤ d ∧ d ≤ 3))

/-- The due-soon count the code computes: non-null `daysUntilDue` at most
3, with no lower bound (overdue tasks with a non-null `daysUntilDue` are
included). -/
def amendedDueSoonCount (st : RepoState) (userId : Option String) : Nat :=
  let tasks := if truthyStr userId then
    repoFindByOwner st (userId.getD "") else repoFindAll st
  tasks.countP (fun t => t.daysUntilDue.isSome && decide (t.daysUntilDue.getD 0 ≤ 3))

/-- The priority ordinal used to state the sorting claim; on the four
known priorities it agrees with the comparator's lookup object. -/
def prioOrd (t : Task) : Nat := (prioMap t.priority).getD 0

/-- Fixture: a user. -/
def userAlice : User := { id := "u1", username := "alice" }

/-- Fixture: another user. -/
def userBob : User := { id := "u2", username := "bob" }

/-- Fixture: a task owned by `u1` and assigned to `u2`. -/
def taskOne : Task :=
  { id := "t1", title := "Buy milk", description := "errand",
    ownerId := "u1", assigneeId := "u2", category := "personal",
    priority := "medium", status := "pending", dueDate := some 1000,
    createdAt := 10, daysUntilDue := some 2, isOverdue := false,
    estimatedHours := 0, timeSpent := 0, tags := ["home"], notes := [] }

/-- Fixture: a task already past due (negative `daysUntilDue`), owned by
`u1`. -/
def taskLate : Task :=
  { id := "t2", title := "File report", description := "",
    ownerId := "u1", assigneeId := "u1", category := "work",
    priority := "high", status := "pending", dueDate := some 5,
    createdAt := 1, daysUntilDue := some (-5), isOverdue := true,
    estimatedHours := 0, timeSpent := 0, tags := [], notes := [] }

/-- Fixture: the empty controller state with nobody logged in. -/
def emptyCtrl : ControllerState :=
  { currentUser := none, repo := { tasks := [], stored := [] }, users := [] }

/-- Fixture: a repository holding only `taskOne`, persisted. -/
def repoOne : RepoState :=
  { tasks := [("t1", taskOne)], stored := [("t1", taskOne)] }

/-- Fixture: a repository holding only `taskLate`, persisted. -/
def repoLate : RepoState :=
  { tasks := [("t2", taskLate)], stored := [("t2", taskLate)] }

/-- Fixture: Alice (the owner of `taskOne`) logged in over `repoOne`. -/
def ctrlAlice : ControllerState :=
  { currentUser := some userAlice, repo := repoOne, users := [userAlice, userBob] }

/-- Fixture: Bob (the assignee of `taskOne`, not its owner) logged in
over `repoOne`. -/
def ctrlBob : ControllerState :=
  { currentUser := some userBob, repo := repoOne, users := [userAlice, userBob] }

/-- Fixture: an updates object whose first present key (title) is valid
and whose second present key (priority) is not. -/
def updatesBadPriority : Updates :=
  { title := some "New task", priority := some "bogus" }

/-- Fixture: `taskOne` after the title mutation alone. -/
def taskOneRenamed : Task := { taskOne with title := "New task" }

theorem applySteps_append (ops : TaskOps) (t : Task) (l1 l2 : List MutStep) :
    applySteps ops t (l1 ++ l2) =
      match applySteps ops t l1 with
      | Except.ok t1 => applySteps ops t1 l2
      | Except.error x => Except.error x := by
  induction l1 generalizing t with
  | nil => rfl
  | cons s rest ih =>
    simp only [List.cons_append, applySteps]
    cases applyStep ops t s with
    | error e => rfl
    | ok t2 => exact ih t2

theorem mem_insertSorted (le : Task → Task → Bool) (a x : Task) (l : List Task) :
    x ∈ insertSorted le a l ↔ x = a ∨ x ∈ l := by
  induction l with
  | nil => simp [insertSorted]
  | cons b bs ih =>
    simp only [insertSorted]
    split
    · simp [List.mem_cons]
    · simp only [List.mem_cons, ih]
      tauto

theorem mem_sortTasks (x : Task) (l : List Task) (s o : String) :
    x ∈ sortTasks l s o ↔ x ∈ l := by
  induction l with
  | nil => simp [sortTasks]
  | cons t ts ih => simp [sortTasks, mem_insertSorted, ih, List.mem_cons]

theorem mem_of_stepFilter {c : Prop} [Decidable c] {p : Task → Bool}
    {l : List Task} {x : Task} (h : x ∈ if c then l.filter p else l) : x ∈ l := by
  split at h
  · exact List.filter_subset' _ h
  · exact h

theorem mem_of_tagsFilter {o : Option (List String)} {p : List String → Task → Bool}
    {l : List Task} {x : Task}
    (h : x ∈ (match o with
      | some ts => if ts.length > 0 then l.filter (p ts) else l
      | none => l)) : x ∈ l := by
  cases o with
  | none => exact h
  | some ts =>
    simp only at h
    split at h
    · exact List.filter_subset' _ h
    · exact h

theorem mem_repoFilter_owner {st : RepoState} {f : Filters} {x : Task}
    (hx : x ∈ repoFilter st f) (htruthy : truthyStr f.ownerId = true) :
    some x.ownerId = f.ownerId := by
  unfold repoFilter at hx
  have h7 := mem_of_tagsFilter hx
  have h6 := mem_of_stepFilter h7
  have h5 := mem_of_stepFilter h6
  have h4 := mem_of_stepFilter h5
  have h3 := mem_of_stepFilter h4
  have h2 := mem_of_stepFilter h3
  have h1 := mem_of_stepFilter h2
  rw [if_pos htruthy] at h1
  exact of_decide_eq_true (List.mem_filter.mp h1).2

theorem prioMap_eq_of_mem {p : String} (h : p ∈ priorityList) :
    prioMap p = some ((prioMap p).getD 0) := by
  simp only [priorityList, List.mem_cons, List.not_mem_nil, or_false] at h
  rcases h with h | h | h | h <;> subst h <;> rfl

theorem sortLe_prio_iff {a b : Task} (ha : a.priority ∈ priorityList)
    (hb : b.priority ∈ priorityList) :
    sortLe "priority" "desc" a b = true ↔ prioOrd b ≤ prioOrd a := by
  have ha2 := prioMap_eq_of_mem ha
  have hb2 := prioMap_eq_of_mem hb
  simp only [sortLe, jsComparator, sortKeyLt]
  norm_num
  rw [ha2, hb2]
  simp only [jsltNat]
  by_cases hlt : (prioMap a.priority).getD 0 < (prioMap b.priority).getD 0 <;>
    (simp [prioOrd, hlt]; try omega)

theorem pairwise_insertSorted_prio {a : Task} {l : List Task}
    (ha : a.priority ∈ priorityList) (hl : ∀ x ∈ l, x.priority ∈ priorityList)
    (hp : l.Pairwise (fun x y => prioOrd y ≤ prioOrd x)) :
    (insertSorted (sortLe "priority" "desc") a l).Pairwise
      (fun x y => prioOrd y ≤ prioOrd x) := by
  induction l with
  | nil => simp [insertSorted]
  | cons b bs ih =>
    rcases List.pairwise_cons.mp hp with ⟨hb, hbs⟩
    have hbP : b.priority ∈ priorityList := hl b (List.mem_cons_self b bs)
    have hbsP : ∀ x ∈ bs, x.priority ∈ priorityList :=
      fun x hx => hl x (List.mem_cons_of_mem b hx)
    simp only [insertSorted]
    split
    case isTrue h =>
      have hab : prioOrd b ≤ prioOrd a := (sortLe_prio_iff ha hbP).mp h
      refine List.Pairwise.cons ?_ hp
      intro x hx
      rcases List.mem_cons.mp hx with rfl | hx2
      · exact hab
      · exact le_trans (hb x hx2) hab
    case isFalse h =>
      have hba : prioOrd a ≤ prioOrd b := by
        by_contra hc
        exact h ((sortLe_prio_iff ha hbP).mpr (le_of_not_le hc))
      refine List.Pairwise.cons ?_ (ih hbsP hbs)
      intro x hx
      rcases (mem_insertSorted _ _ _ _).mp hx with rfl | hx2
      · exact hba
      · exact hb x hx2

/-- C9: for every list of tasks whose priorities are drawn from
low/medium/high/urgent, `sort(tasks, 'priority', 'desc')` yields a
sequence in which every task appears before every task of strictly lower
priority ordinal (low=1, medium=2, high=3, urgent=4): any later element
never has a strictly greater ordinal than an earlier one. -/
theorem sort_priority_desc_ordered (tasks : List Task)
    (h : ∀ t ∈ tasks, t.priority ∈ priorityList) :
    (sortTasks tasks "priority" "desc").Pairwise
      (fun a b => prioOrd b ≤ prioOrd a) := by
  induction tasks with
  | nil => simp [sortTasks]
  | cons t ts ih =>
    have hts : ∀ x ∈ ts, x.priority ∈ priorityList :=
      fun x hx => h x (List.mem_cons_of_mem t hx)
    have hsortedP : ∀ x ∈ sortTasks ts "priority" "desc", x.priority ∈ priorityList :=
      fun x hx => hts x ((mem_sortTasks x ts _ _).mp hx)
    exact pairwise_insertSorted_prio (h t (List.mem_cons_self t ts)) hsortedP (ih hts)

/-- Witness for C9 at a concrete two-task list (medium before high on
input, high before medium on output). -/
theorem sort_priority_desc_ordered_witness :
    (∀ t ∈ [taskOne, taskLate], t.priority ∈ priorityList) ∧
    (sortTasks [taskOne, taskLate] "priority" "desc").Pairwise
      (fun a b => prioOrd b ≤ prioOrd a) :=
  ⟨by decide, sort_priority_desc_ordered [taskOne, taskLate] (by decide)⟩

/-- C5: with a user logged in (with a non-empty id, as every real user
id is), every task in the data list of a successful `getTasks(filters)`
result is owned by the current user, whatever `ownerId` the caller put in
`filters` — the controller's own `ownerId` overrides it and assignee-only
tasks are never included. -/
theorem getTasks_scoped_to_owner (st : ControllerState) (filters : Filters)
    (user : User) (t : Task) (l : List Task)
    (hcu : st.currentUser = some user) (hid : user.id ≠ "")
    (hdata : (getTasks st filters).data = some (ResData.tasks l))
    (ht : t ∈ l) : t.ownerId = user.id := by
  unfold getTasks at hdata
  rw [hcu] at hdata
  simp only [ResData.tasks.injEq, Option.some.injEq] at hdata
  subst hdata
  rw [mem_sortTasks] at ht
  have htr : truthyStr (Filters.ownerId { filters with ownerId := some user.id }) = true := by
    simp [truthyStr, hid]
  have := mem_repoFilter_owner ht htr
  simpa using this

/-- Witness for C5: Alice sees exactly her own task, even though the
filter asks for Bob's tasks. -/
theorem getTasks_scoped_to_owner_witness :
    ctrlAlice.currentUser = some userAlice ∧ userAlice.id ≠ "" ∧
    (getTasks ctrlAlice { ownerId := some "u2" }).data =
      some (ResData.tasks [taskOne]) ∧
    taskOne ∈ [taskOne] ∧ taskOne.ownerId = userAlice.id :=
  ⟨rfl, by decide, by decide, by decide,
    getTasks_scoped_to_owner ctrlAlice { ownerId := some "u2" } userAlice taskOne
      [taskOne] rfl (by decide) (by decide) (by decide)⟩

/-- C1 (amended): with no current user set, every task operation except
`toggleTaskStatus` returns `\x7b success:false, error:'User harus login
terlebih dahulu' \x7d` and leaves the state untouched, regardless of its
arguments, the entity-layer behaviour, and the repository state.
(`toggleTaskStatus` performs its not-found lookup before touching the
current user, so it is the exception.) -/
theorem ops_require_login (ops : TaskOps) (st : ControllerState)
    (d : CreateData) (f : Filters) (id1 id2 id3 : String) (u : Updates)
    (q : Option String) (days : Int) (hcu : st.currentUser = none) :
    createTask ops st d = (loginDenied, st) ∧
    getTasks st f = loginDenied ∧
    getTask st id1 = loginDenied ∧
    updateTask ops st id2 u = (loginDenied, st) ∧
    deleteTask st id3 = (loginDenied, st) ∧
    searchTasks st q = loginDenied ∧
    getTaskStats st = loginDenied ∧
    getOverdueTasks st = loginDenied ∧
    getTasksDueSoon st days = loginDenied := by
  unfold createTask getTasks getTask updateTask deleteTask searchTasks
    getTaskStats getOverdueTasks getTasksDueSoon loginDenied
  rw [hcu]
  exact ⟨rfl, rfl, rfl, rfl, rfl, rfl, rfl, rfl, rfl⟩

/-- Witness for C1 (amended) on the empty state with nobody logged in. -/
theorem ops_require_login_witness :
    emptyCtrl.currentUser = none ∧
    (createTask specOps emptyCtrl { title := some "x" } = (loginDenied, emptyCtrl) ∧
     getTasks emptyCtrl {} = loginDenied ∧
     getTask emptyCtrl "t1" = loginDenied ∧
     updateTask specOps emptyCtrl "t1" {} = (loginDenied, emptyCtrl) ∧
     deleteTask emptyCtrl "t1" = (loginDenied, emptyCtrl) ∧
     searchTasks emptyCtrl (some "milk") = loginDenied ∧
     getTaskStats emptyCtrl = loginDenied ∧
     getOverdueTasks emptyCtrl = loginDenied ∧
     getTasksDueSoon emptyCtrl 3 = loginDenied) :=
  ⟨rfl, ops_require_login specOps emptyCtrl { title := some "x" } {} "t1" "t1" "t1"
    {} (some "milk") 3 rfl⟩

/-- C1 counterexample: `toggleTaskStatus` with no current user and an
absent task id answers 'Task tidak ditemukan', not the required login
error — the claim fails for `toggleTaskStatus`. -/
theorem toggle_no_login_counterexample :
    toggleTaskStatus specOps emptyCtrl "t1" =
      ({ success := false, error := some "Task tidak ditemukan" }, emptyCtrl) ∧
    ({ success := false, error := some "Task tidak ditemukan" } : Response) ≠
      loginDenied :=
  ⟨rfl, by decide⟩

/-- C3 counterexample: `setCurrentUser` on an unknown user id propagates
the exception 'User tidak ditemukan' to its caller instead of returning
a `\x7b success:false, error \x7d` envelope. -/
theorem setCurrentUser_throws_counterexample :
    (setCurrentUser emptyCtrl "u1").1 = Except.error "User tidak ditemukan" := rfl

theorem envOk_createTask (ops : TaskOps) (st : ControllerState) (d : CreateData) :
    envelopeOk (createTask ops st d).1 := by
  unfold createTask
  try dsimp only
  repeat' split
  all_goals simp [envelopeOk]

theorem envOk_getTasks (st : ControllerState) (f : Filters) :
    envelopeOk (getTasks st f) := by
  unfold getTasks
  try dsimp only
  repeat' split
  all_goals simp [envelopeOk]

theorem envOk_getTask (st : ControllerState) (id : String) :
    envelopeOk (getTask st id) := by
  unfold getTask
  try dsimp only
  repeat' split
  all_goals simp [envelopeOk]

theorem envOk_updateTask (ops : TaskOps) (st : ControllerState) (id : String)
    (u : Updates) : envelopeOk (updateTask ops st id u).1 := by
  unfold updateTask
  try dsimp only
  repeat' split
  all_goals simp [envelopeOk]

theorem envOk_deleteTask (st : ControllerState) (id : String) :
    envelopeOk (deleteTask st id).1 := by
  unfold deleteTask
  try dsimp only
  repeat' split
  all_goals simp [envelopeOk]

theorem envOk_toggleTaskStatus (ops : TaskOps) (st : ControllerState) (id : String) :
    envelopeOk (toggleTaskStatus ops st id).1 := by
  unfold toggleTaskStatus
  try dsimp only
  repeat' split
  all_goals simp [envelopeOk]

theorem envOk_searchTasks (st : ControllerState) (q : Option String) :
    envelopeOk (searchTasks st q) := by
  unfold searchTasks
  try dsimp only
  repeat' split
  all_goals simp [envelopeOk]

theorem envOk_getTaskStats (st : ControllerState) :
    envelopeOk (getTaskStats st) := by
  unfold getTaskStats
  try dsimp only
  repeat' split
  all_goals simp [envelopeOk]

theorem envOk_getOverdueTasks (st : ControllerState) :
    envelopeOk (getOverdueTasks st) := by
  unfold getOverdueTasks
  try dsimp only
  repeat' split
  all_goals simp [envelopeOk]

theorem envOk_getTasksDueSoon (st : ControllerState) (days : Int) :
    envelopeOk (getTasksDueSoon st days) := by
  unfold getTasksDueSoon
  try dsimp only
  repeat' split
  all_goals simp [envelopeOk]

/-- C3 (amended): every task operation of the controller — createTask,
getTasks, getTask, updateTask, deleteTask, toggleTaskStatus, searchTasks,
getTaskStats, getOverdueTasks, getTasksDueSoon — returns a value of the
envelope shape for every state, every argument, and every behaviour of
the repository/entity layer, never propagating an exception: a failure
carries only `success:false` and the error message, a success carries no
error.  `setCurrentUser` is excluded: it throws when the user id is
unknown. -/
theorem ops_return_envelope (ops : TaskOps) (st : ControllerState)
    (d : CreateData) (f : Filters) (id1 id2 id3 id4 : String) (u : Updates)
    (q : Option String) (days : Int) :
    envelopeOk (createTask ops st d).1 ∧
    envelopeOk (getTasks st f) ∧
    envelopeOk (getTask st id1) ∧
    envelopeOk (updateTask ops st id2 u).1 ∧
    envelopeOk (deleteTask st id3).1 ∧
    envelopeOk (toggleTaskStatus ops st id4).1 ∧
    envelopeOk (searchTasks st q) ∧
    envelopeOk (getTaskStats st) ∧
    envelopeOk (getOverdueTasks st) ∧
    envelopeOk (getTasksDueSoon st days) :=
  ⟨envOk_createTask ops st d, envOk_getTasks st f, envOk_getTask st id1,
   envOk_updateTask ops st id2 u, envOk_deleteTask st id3,
   envOk_toggleTaskStatus ops st id4, envOk_searchTasks st q,
   envOk_getTaskStats st, envOk_getOverdueTasks st,
   envOk_getTasksDueSoon st days⟩

/-- C6: for every logged-in user who is not the owner of an existing
task (its assignee included), `updateTask` answers 'Hanya owner yang bisa
mengubah task' and leaves the whole state — hence the task — untouched:
the repository update is never reached. -/
theorem updateTask_owner_only (ops : TaskOps) (st : ControllerState)
    (id : String) (u : Updates) (user : User) (task : Task)
    (hcu : st.currentUser = some user)
    (hfind : repoFindById st.repo id = some task)
    (hown : task.ownerId ≠ user.id) :
    updateTask ops st id u =
      ({ success := false, error := some "Hanya owner yang bisa mengubah task" }, st) := by
  unfold updateTask
  rw [hcu, hfind]
  dsimp only
  rw [if_pos hown]

/-- Witness for C6: Bob, the assignee of Alice's task, cannot update it. -/
theorem updateTask_owner_only_witness :
    ctrlBob.currentUser = some userBob ∧
    repoFindById ctrlBob.repo "t1" = some taskOne ∧
    taskOne.ownerId ≠ userBob.id ∧
    updateTask specOps ctrlBob "t1" { title := some "Hijack" } =
      ({ success := false, error := some "Hanya owner yang bisa mengubah task" },
       ctrlBob) :=
  ⟨rfl, rfl, by decide,
    updateTask_owner_only specOps ctrlBob "t1" { title := some "Hijack" }
      userBob taskOne rfl rfl (by decide)⟩

/-- C7 counterexample: the owner updating with the falsy-but-defined
`assigneeId` value `""` (no user has this id) does NOT get the required
'User yang di-assign tidak ditemukan' error — the truthiness guard skips
the existence check, the update succeeds, and the task's `assigneeId`
becomes `""`. -/
theorem updateTask_empty_assignee_counterexample :
    (updateTask specOps ctrlAlice "t1" { assigneeId := some "" }).1 =
      { success := true,
        data := some (ResData.task { taskOne with assigneeId := "" }),
        message := some "Task berhasil diupdate" } ∧
    lookupTask (updateTask specOps ctrlAlice "t1"
      { assigneeId := some "" }).2.repo.tasks "t1" =
      some { taskOne with assigneeId := "" } ∧
    userFindById ctrlAlice.users "" = none ∧
    (updateTask specOps ctrlAlice "t1" { assigneeId := some "" }).1 ≠
      { success := false, error := some "User yang di-assign tidak ditemukan" } :=
  ⟨rfl, rfl, rfl, by decide⟩

/-- C7 (amended): for every `updateTask` call by the owner of an existing
task whose updates carry a truthy (defined and non-empty) `assigneeId`
that is not the id of an existing user, the call answers 'User yang
di-assign tidak ditemukan' and the state — hence the task's `assigneeId`
— is unchanged.  (A falsy but defined value such as `""` instead skips
the existence check and is handed to the entity layer.) -/
theorem updateTask_unknown_assignee (ops : TaskOps) (st : ControllerState)
    (id : String) (u : Updates) (user : User) (task : Task) (aid : String)
    (hcu : st.currentUser = some user)
    (hfind : repoFindById st.repo id = some task)
    (hown : task.ownerId = user.id)
    (hass : u.assigneeId = some aid) (hne : aid ≠ "")
    (hnouser : userFindById st.users aid = none) :
    updateTask ops st id u =
      ({ success := false, error := some "User yang di-assign tidak ditemukan" }, st) := by
  unfold updateTask
  rw [hcu, hfind]
  dsimp only
  rw [if_neg (by simp [hown])]
  rw [if_pos ⟨by simp [truthyStr, hass, hne], by rw [hass]; simpa using hnouser⟩]

/-- Witness for C7 (amended): Alice assigns her task to the unknown id
"zz". -/
theorem updateTask_unknown_assignee_witness :
    ctrlAlice.currentUser = some userAlice ∧
    repoFindById ctrlAlice.repo "t1" = some taskOne ∧
    taskOne.ownerId = userAlice.id ∧
    ("zz" : String) ≠ "" ∧
    userFindById ctrlAlice.users "zz" = none ∧
    updateTask specOps ctrlAlice "t1" { assigneeId := some "zz" } =
      ({ success := false, error := some "User yang di-assign tidak ditemukan" },
       ctrlAlice) :=
  ⟨rfl, rfl, rfl, by decide, rfl,
    updateTask_unknown_assignee specOps ctrlAlice "t1" { assigneeId := some "zz" }
      userAlice taskOne "zz" rfl rfl rfl rfl (by decide) rfl⟩

/-- C10: with a current user set, `searchTasks` answers 'Query pencarian
tidak boleh kosong' for every query that is absent, empty, or whitespace
only — for every repository state, so the repository search (which would
match every task on an empty query) is never consulted for such a query. -/
theorem searchTasks_blank_query (st : ControllerState) (user : User)
    (q : Option String) (hcu : st.currentUser = some user)
    (hq : q = none ∨ ∃ s, q = some s ∧ jsTrim s = "") :
    searchTasks st q =
      { success := false, error := some "Query pencarian tidak boleh kosong" } := by
  unfold searchTasks
  rw [hcu]
  dsimp only
  have hblank : strBlank q = true := by
    rcases hq with rfl | ⟨s, rfl, hs⟩
    · rfl
    · simp [strBlank, hs]
  rw [if_pos hblank]

/-- Witness for C10: a whitespace-only query. -/
theorem searchTasks_blank_query_witness :
    ctrlAlice.currentUser = some userAlice ∧
    (some "   " = none ∨ ∃ s, some "   " = some s ∧ jsTrim s = "") ∧
    searchTasks ctrlAlice (some "   ") =
      { success := false, error := some "Query pencarian tidak boleh kosong" } :=
  ⟨rfl, Or.inr ⟨"   ", rfl, rfl⟩,
    searchTasks_blank_query ctrlAlice userAlice (some "   ") rfl
      (Or.inr ⟨"   ", rfl, rfl⟩)⟩

/-- C8: absence is a null or false result, never an error: on an id not
in the index, `findById` returns null, `update` returns null applying no
mutation and persisting nothing, and `delete` returns false persisting
nothing — none of them throws (all are total, non-`error` results). -/
theorem absent_id_null_results (ops : TaskOps) (st : RepoState) (id : String)
    (u : Updates) (habs : lookupTask st.tasks id = none) :
    repoFindById st id = none ∧
    repoUpdate ops st id u = (Except.ok none, st) ∧
    repoDelete st id = (false, st) := by
  refine ⟨habs, ?_, ?_⟩
  · unfold repoUpdate
    rw [habs]
  · unfold repoDelete
    rw [habs]
    simp

/-- Witness for C8 at the id "zz", absent from `repoOne`. -/
theorem absent_id_null_results_witness :
    lookupTask repoOne.tasks "zz" = none ∧
    repoFindById repoOne "zz" = none ∧
    repoUpdate specOps repoOne "zz" { title := some "x" } =
      (Except.ok none, repoOne) ∧
    repoDelete repoOne "zz" = (false, repoOne) :=
  ⟨rfl, absent_id_null_results specOps repoOne "zz" { title := some "x" } rfl⟩

/-- C2 counterexample: a task five days overdue (`daysUntilDue = -5`)
is counted by `getStats`'s `dueSoon` though its `daysUntilDue` does not
lie in `[0, 3]` — the two counts differ on `repoLate`. -/
theorem getStats_dueSoon_counterexample :
    (repoGetStats repoLate (some "u1")).dueSoon = 1 ∧
    specDueSoonCount repoLate (some "u1") = 0 ∧
    (repoGetStats repoLate (some "u1")).dueSoon ≠
      specDueSoonCount repoLate (some "u1") := by decide

/-- C2 (amended): for every repository state and scope argument, the
`dueSoon` field of `getStats(userId)` equals the number of in-scope
tasks whose `daysUntilDue` is non-null and at most 3 — with no lower
bound, so overdue tasks with a non-null `daysUntilDue` are included
(unlike `findDueSoon`, which also requires `daysUntilDue ≥ 0`). -/
theorem getStats_dueSoon_no_lower_bound (st : RepoState) (userId : Option String) :
    (repoGetStats st userId).dueSoon = amendedDueSoonCount st userId := by
  unfold repoGetStats amendedDueSoonCount
  dsimp only
  rw [List.countP_eq_length_filter]
  congr 1
  apply List.filter_congr
  intro t _
  cases h : t.daysUntilDue <;> simp [h]

/-- C4: `update` on a present id applies the recognized mutations in the
fixed source order given by `stepsOf` (one per present key); when the
K-th mutation raises a domain error, the task in the index keeps exactly
the first K mutations' effects minus the failing one (`t2`, the result of
the K-step prefix), no later mutation runs, the error propagates, and the
stored mirror is not rewritten in that call. -/
theorem update_mutation_failure (ops : TaskOps) (st : RepoState) (id : String)
    (u : Updates) (t t2 : Task) (k : Nat) (e : String)
    (hfind : lookupTask st.tasks id = some t)
    (hk : k < (stepsOf u).length)
    (hpre : applySteps ops t ((stepsOf u).take k) = Except.ok t2)
    (hfail : applyStep ops t2 ((stepsOf u).get ⟨k, hk⟩) = Except.error e) :
    repoUpdate ops st id u =
      (Except.error e, ⟨setTask st.tasks id t2, st.stored⟩) := by
  have hrun : applySteps ops t (stepsOf u) = Except.error (e, t2) := by
    have hsplit : stepsOf u =
        (stepsOf u).take k ++ ((stepsOf u).get ⟨k, hk⟩ :: (stepsOf u).drop (k + 1)) := by
      rw [List.get_eq_getElem, ← List.drop_eq_getElem_cons hk, List.take_append_drop]
    conv_lhs => rw [hsplit]
    rw [applySteps_append, hpre]
    dsimp only
    simp only [applySteps]
    rw [hfail]
  unfold repoUpdate
  rw [hfind]
  dsimp only
  rw [hrun]

/-- Witness for C4: on `taskOne`, an update carrying a valid new title
and the invalid priority "bogus" renames the in-memory task but persists
nothing and surfaces the priority error. -/
theorem update_mutation_failure_witness :
    lookupTask repoOne.tasks "t1" = some taskOne ∧
    1 < (stepsOf updatesBadPriority).length ∧
    applySteps specOps taskOne ((stepsOf updatesBadPriority).take 1) =
      Except.ok taskOneRenamed ∧
    applyStep specOps taskOneRenamed
      ((stepsOf updatesBadPriority).get ⟨1, by decide⟩) =
      Except.error "Prioritas tidak valid: bogus" ∧
    repoUpdate specOps repoOne "t1" updatesBadPriority =
      (Except.error "Prioritas tidak valid: bogus",
       ⟨setTask repoOne.tasks "t1" taskOneRenamed, repoOne.stored⟩) :=
  ⟨rfl, by decide, rfl, rfl,
    update_mutation_failure specOps repoOne "t1" updatesBadPriority taskOne
      taskOneRenamed 1 "Prioritas tidak valid: bogus" rfl (by decide) rfl rfl⟩

end TaskMgmt
